import Mathlib

/-!
Verification of the task coordination layer (`src/modules/task.py`,
`src/modules/task_manager.py`) against its natural-language specification.

Shallow embedding conventions:
* timestamps (`datetime`) are modelled as `Int` seconds; `datetime.now()`
  becomes an explicit `now : Int` argument (two distinct `now()` calls in one
  source operation become two arguments `now1`, `now2`);
* Python's `timedelta.days` is floor division by 86400, i.e. `Int.fdiv`;
* string operations are modelled over the character list `String.data`
  (Python `str` operations act on code points);
* the MySQL store is modelled as an association list of committed rows keyed
  by id, holding the field values of the row (the shape of `Task.to_dict`);
  statement failure (`execute_query`/`commit` raising) is an explicit
  `storeFails : Bool` argument, `rollback` restores the committed rows;
* a Python exception becomes an `Except`/`Option` error value, and in-place
  object mutation becomes explicit state passing: `Task.update` returns the
  mutated task even on failure, because the Python method has already mutated
  `self` when it raises, and the cache holds that same object (aliasing).
-/

namespace TaskApp

/-- Python `str.lower` on the ASCII strings used here. -/
def pyLower (s : String) : String := String.mk (s.data.map Char.toLower)

/-- Python `str.replace("_", " ")`: the pattern is the single character `_`,
so the call is character-wise replacement. -/
def pyReplaceUnderscore (s : String) : String :=
  String.mk (s.data.map (fun c => if c = '_' then ' ' else c))

/-- Python `s.startswith(pre)`. -/
def pyStartsWith (s pre : String) : Bool := List.isPrefixOf pre.data s.data

/-- Python `not s.strip()`: true iff `s` is empty or whitespace-only. -/
def pyStripEmpty (s : String) : Bool := s.data.all Char.isWhitespace

/-- Python `len(s)` (code points). -/
def pyLen (s : String) : Nat := s.data.length

/-- Python `s[:n]` (code points). -/
def pyTake (s : String) (n : Nat) : String := String.mk (s.data.take n)

/-- `Priority` enum of `task.py`. -/
inductive Priority
  | LOW
  | MEDIUM
  | HIGH
deriving DecidableEq

/-- `Priority.value`: the string form of the enum member. -/
def Priority.value : Priority → String
  | .LOW => "LOW"
  | .MEDIUM => "MEDIUM"
  | .HIGH => "HIGH"

/-- `Priority(s)` enum construction: `none` models the `ValueError` raised on
an unrecognized string. -/
def Priority.ofString (s : String) : Option Priority :=
  if s = "LOW" then some .LOW
  else if s = "MEDIUM" then some .MEDIUM
  else if s = "HIGH" then some .HIGH
  else none

/-- `Status` enum of `task.py`. -/
inductive Status
  | PENDING
  | IN_PROGRESS
  | COMPLETED
deriving DecidableEq

/-- `Status.value`: the string form of the enum member. -/
def Status.value : Status → String
  | .PENDING => "PENDING"
  | .IN_PROGRESS => "IN_PROGRESS"
  | .COMPLETED => "COMPLETED"

/-- `Status(s)` enum construction: `none` models the `ValueError` raised on
an unrecognized string. -/
def Status.ofString (s : String) : Option Status :=
  if s = "PENDING" then some .PENDING
  else if s = "IN_PROGRESS" then some .IN_PROGRESS
  else if s = "COMPLETED" then some .COMPLETED
  else none

/-- The `Task` entity of `task.py`: one record per task.  `due_date` and
`description` are `Optional` in the source.  A committed store row carries
exactly these field values (`Task.to_dict` / `Task.from_dict` round-trip), so
the same structure doubles as the row type. -/
structure Task where
  task_id : String
  title : String
  description : Option String
  due_date : Option Int
  priority : Priority
  status : Status
  created_at : Int
  updated_at : Int
deriving DecidableEq

/-- `Task.validate_fields` of `task.py`: `False` models a raised `ValueError`.
The `isinstance` checks on `priority`/`status` are vacuous here because the
embedding is typed: an invalid enum string already fails at `ofString`. -/
def Task.validate_fields (t : Task) : Bool :=
  if t.title.data.isEmpty || pyStripEmpty t.title then false
  else if 100 < pyLen t.title then false
  else if (match t.description with
           | some d => !d.data.isEmpty && 500 < pyLen d
           | none => false) then false
  else true

/-- `Task.__init__` of `task.py`.  `genId` models `str(uuid.uuid4())` and
`now` models `datetime.now()`; a supplied empty-string `task_id` is falsy in
Python and is replaced by the generated id.  `.error` models the `ValueError`
raised by `validate_fields`. -/
def Task.init (task_id : Option String) (title : String)
    (description : Option String) (due_date : Option Int)
    (priority : Priority) (status : Status)
    (created_at : Option Int) (updated_at : Option Int)
    (now : Int) (genId : String) : Except Unit Task :=
  let t : Task := {
    task_id := match task_id with
               | some s => if s.data.isEmpty then genId else s
               | none => genId
    title := title
    description := description
    due_date := due_date
    priority := priority
    status := status
    created_at := created_at.getD now
    updated_at := updated_at.getD now }
  if t.validate_fields then .ok t else .error ()

/-- The flat record shape `Task.from_dict` consumes (a store row as returned
by the driver): enum fields are still strings, `id` may be absent. -/
structure TaskRecord where
  id : Option String
  title : String
  description : Option String
  due_date : Option Int
  priority : String
  status : String
  created_at : Int
  updated_at : Int
deriving DecidableEq

/-- `Task.from_dict` of `task.py`: enum strings are converted (a `ValueError`
on an unknown string is `.error`), the caller-supplied timestamps are passed
to `Task.__init__` unchanged. -/
def Task.from_dict (data : TaskRecord) (now : Int) (genId : String) :
    Except Unit Task :=
  match Priority.ofString data.priority, Status.ofString data.status with
  | some p, some st =>
      Task.init data.id data.title data.description data.due_date p st
        (some data.created_at) (some data.updated_at) now genId
  | _, _ => .error ()

/-- `Task.to_dict` of `task.py`. -/
def Task.to_dict (t : Task) : TaskRecord :=
  { id := some t.task_id
    title := t.title
    description := t.description
    due_date := t.due_date
    priority := t.priority.value
    status := t.status.value
    created_at := t.created_at
    updated_at := t.updated_at }

/-- `Task.mark_completed` of `task.py`. -/
def Task.mark_completed (t : Task) (now : Int) : Task :=
  { t with status := .COMPLETED, updated_at := now }

/-- The keyword arguments accepted by `Task.update`.  An outer `none` means
the key is absent from `kwargs`; for `description`/`due_date` an inner `none`
is an explicitly supplied Python `None` (clearing the field). -/
structure TaskUpdates where
  title : Option String
  description : Option (Option String)
  due_date : Option (Option Int)
  priority : Option String
  status : Option String
deriving DecidableEq

/-- The distinct `ValueError` sites inside `Task.update`. -/
inductive UpdateError
  | invalidPriority
  | invalidStatus
  | invalidFields
deriving DecidableEq

/-- Tail of `Task.update` after all field assignments: refresh `updated_at`
then run `validate_fields`.  The returned task is the mutated `self`, kept
even when the error is raised. -/
def Task.updateFinish (t : Task) (now : Int) : Task × Option UpdateError :=
  let t := { t with updated_at := now }
  if t.validate_fields then (t, none) else (t, some .invalidFields)

/-- The `status` assignment step of `Task.update`: `Status(kwargs["status"])`
raises before assigning when the string is unknown, so the task is returned
unchanged in that case. -/
def Task.updateStatusStep (t : Task) (u : TaskUpdates) (now : Int) :
    Task × Option UpdateError :=
  match u.status with
  | some s =>
      match Status.ofString s with
      | none => (t, some .invalidStatus)
      | some sv => Task.updateFinish { t with status := sv } now
  | none => Task.updateFinish t now

/-- `Task.update` of `task.py`, statement by statement: assign `title`,
`description`, `due_date` when present, then `priority` (enum conversion may
raise), then `status`, then refresh `updated_at`, then validate.  The first
component is the state of the (in-place mutated) object when the method
returns or raises; the second is the raised error, if any. -/
def Task.update (t : Task) (u : TaskUpdates) (now : Int) :
    Task × Option UpdateError :=
  let t1 := match u.title with
            | some v => { t with title := v }
            | none => t
  let t2 := match u.description with
            | some v => { t1 with description := v }
            | none => t1
  let t3 := match u.due_date with
            | some v => { t2 with due_date := v }
            | none => t2
  match u.priority with
  | some p =>
      match Priority.ofString p with
      | none => (t3, some .invalidPriority)
      | some pv => Task.updateStatusStep { t3 with priority := pv } u now
  | none => Task.updateStatusStep t3 u now

/-- The insertion-ordered dictionary `task_cache : dict[str, Task]` (Python
dicts preserve insertion order and have unique keys).  The same shape models
the committed rows of the `tasks` table. -/
abbrev Cache := List (String × Task)

/-- Python `d[k]` / `k in d` lookup. -/
def lookupKV : Cache → String → Option Task
  | [], _ => none
  | (k, v) :: rest, key => if k = key then some v else lookupKV rest key

/-- Python `d[k] = v`: replace in place when the key exists, else append. -/
def insertKV : Cache → String → Task → Cache
  | [], k, v => [(k, v)]
  | (k0, v0) :: rest, k, v =>
      if k0 = k then (k, v) :: rest else (k0, v0) :: insertKV rest k v

/-- The error taxonomy surfaced by `TaskManager` operations:
`taskNotFound`/`ambiguousId` model `TaskNotFoundError` (the ambiguous variant
carries the shortened candidate ids), `validation` models `ValidationError`,
`persistence` models the generic `Exception` raised after a rollback. -/
inductive MgrError
  | taskNotFound
  | ambiguousId (ids : List String)
  | validation (e : UpdateError)
  | persistence
deriving DecidableEq

/-- The state owned by `TaskManager`: the in-memory cache plus the committed
rows of the backing `tasks` table (the `DatabaseConnector` is external; only
the rows it has durably committed matter to the claims). -/
structure TaskManagerState where
  task_cache : Cache
  store : Cache
deriving DecidableEq

/-- The cached tasks in iteration order: `list(self.task_cache.values())`. -/
def cacheValues (s : TaskManagerState) : List Task := s.task_cache.map Prod.snd

/-- `TaskManager.get_task`: return the cached task on a hit; otherwise fetch
the row by id, populate the cache and return it, or raise
`TaskNotFoundError`.  A fetched row deserializes to itself
(`Task.from_dict (Task.to_dict t)` restores `t` field by field), so the
store lookup yields the task directly. -/
def get_task (s : TaskManagerState) (task_id : String) :
    TaskManagerState × Except MgrError Task :=
  match lookupKV s.task_cache task_id with
  | some t => (s, .ok t)
  | none =>
      match lookupKV s.store task_id with
      | some row =>
          ({ s with task_cache := insertKV s.task_cache task_id row }, .ok row)
      | none => (s, .error .taskNotFound)

/-- `TaskManager.get_task_by_partial_id`: scan the cache for keys having the
given string as a prefix; fail on zero matches, fail with the shortened
candidate ids (`task_id[:8]`) on more than one, return the single match.
The store is not an argument: the operation reads only the cache. -/
def get_task_by_partial_id (task_cache : Cache) (partial_id : String) :
    Except MgrError Task :=
  let found :=
    (task_cache.filter (fun kv => pyStartsWith kv.1 partial_id)).map Prod.snd
  match found with
  | [] => .error .taskNotFound
  | [t] => .ok t
  | _ => .error (.ambiguousId (found.map (fun t => pyTake t.task_id 8)))

/-- The input dictionary of `TaskManager.add_task`.  Callers may also put
`id` and `status` entries into the dict; `add_task` never reads them, which
the definition reflects by ignoring those fields. -/
structure AddTaskData where
  id : Option String
  title : String
  description : Option String
  due_date : Option Int
  priority : String
  status : Option String
deriving DecidableEq

/-- `TaskManager.add_task`: construct a `Task` (fresh uuid, default PENDING
status, both timestamps defaulted to now), INSERT its `to_dict` row and
commit, then put it into the cache.  A `ValueError` (bad priority string or
failed field validation) becomes `ValidationError` before any store write;
a store failure rolls back and leaves both cache and store unchanged. -/
def add_task (s : TaskManagerState) (task_data : AddTaskData)
    (now : Int) (genId : String) (storeFails : Bool) :
    TaskManagerState × Except MgrError Task :=
  match Priority.ofString task_data.priority with
  | none => (s, .error (.validation .invalidPriority))
  | some p =>
      match Task.init none task_data.title task_data.description
          task_data.due_date p .PENDING none none now genId with
      | .error _ => (s, .error (.validation .invalidFields))
      | .ok task =>
          if storeFails then (s, .error .persistence)
          else
            ({ task_cache := insertKV s.task_cache task.task_id task,
               store := insertKV s.store task.task_id task },
             .ok task)

/-- Whether the `updates` dict holds any of the five persistable keys
(the `update_fields` list of `update_task` is nonempty). -/
def hasUpdateFields (u : TaskUpdates) : Bool :=
  u.title.isSome || u.description.isSome || u.due_date.isSome ||
    u.priority.isSome || u.status.isSome

/-- The effect on the committed rows of the dynamic
`UPDATE tasks SET ... WHERE id = ...` statement issued by `update_task`: the
row's changed columns take the raw values from `updates`, and `updated_at`
takes the second `datetime.now()` reading (`now2`).  An id with no row
updates nothing.  Enum strings were already accepted by `Task.update` when
this statement runs, so the string-to-enum conversion cannot fail here. -/
def applyRowUpdate (store : Cache) (task_id : String) (u : TaskUpdates)
    (now2 : Int) : Cache :=
  match lookupKV store task_id with
  | none => store
  | some row =>
      let r1 := match u.title with
                | some v => { row with title := v }
                | none => row
      let r2 := match u.description with
                | some v => { r1 with description := v }
                | none => r1
      let r3 := match u.due_date with
                | some v => { r2 with due_date := v }
                | none => r2
      let r4 := match u.priority with
                | some p => match Priority.ofString p with
                            | some pv => { r3 with priority := pv }
                            | none => r3
                | none => r3
      let r5 := match u.status with
                | some st => match Status.ofString st with
                             | some sv => { r4 with status := sv }
                             | none => r4
                | none => r4
      insertKV store task_id { r5 with updated_at := now2 }

/-- `TaskManager.update_task`: resolve via `get_task` (re-raising
`TaskNotFoundError`), call `task.update(**updates)` — which mutates the
cached object in place, so the cache holds the mutated task from that point
on, success or failure — then, when any persistable key was supplied, issue
the UPDATE with a fresh `updated_at := now2` and commit, finally assign the
(aliased) object back into the cache.  A `ValueError` from `task.update`
rolls back and raises `ValidationError`; a store failure rolls back and
raises; in both cases the in-place mutation of the cached object remains. -/
def update_task (s : TaskManagerState) (task_id : String) (u : TaskUpdates)
    (now1 now2 : Int) (storeFails : Bool) :
    TaskManagerState × Except MgrError Task :=
  match get_task s task_id with
  | (s1, .error e) => (s1, .error e)
  | (s1, .ok t) =>
      let mutated := Task.update t u now1
      let s2 := { s1 with task_cache := insertKV s1.task_cache task_id mutated.1 }
      match mutated.2 with
      | some e => (s2, .error (.validation e))
      | none =>
          if !hasUpdateFields u then (s2, .ok mutated.1)
          else if storeFails then (s2, .error .persistence)
          else
            ({ s2 with
                store := applyRowUpdate s2.store task_id u now2,
                task_cache := insertKV s2.task_cache task_id mutated.1 },
             .ok mutated.1)

/-- The `filters["due_date"]` sub-dictionary of `filter_tasks`. -/
structure DateFilter where
  type : String
  date : Int
deriving DecidableEq

/-- The `filters` dictionary of `filter_tasks`: absent keys are
unconstrained. -/
structure Filters where
  status : Option String
  priority : Option String
  due_date : Option DateFilter
deriving DecidableEq

/-- The per-task `match` flag computed by the loop body of
`TaskManager.filter_tasks`.  Note the guard `"due_date" in filters and
task.due_date`: a task with no due date skips the due-date block entirely
and keeps `match = True`. -/
def taskMatches (filters : Filters) (t : Task) : Bool :=
  (match filters.status with
   | some s => t.status.value = s
   | none => true) &&
  (match filters.priority with
   | some p => t.priority.value = p
   | none => true) &&
  (match filters.due_date, t.due_date with
   | some df, some d =>
       if df.type = "before_date" then decide (d < df.date)
       else if df.type = "after_date" then decide (df.date < d)
       else if df.type = "on_date" then
         Int.fdiv d 86400 = Int.fdiv df.date 86400
       else true
   | _, _ => true)

/-- `TaskManager.filter_tasks`: keep, in cache order, the tasks whose
`match` flag survives all supplied criteria.  The `on_date` comparison is
Python's `datetime.date()` equality, i.e. same calendar day (same floor
division of the timestamp by 86400 seconds). -/
def filter_tasks (s : TaskManagerState) (filters : Filters) : List Task :=
  (cacheValues s).filter (taskMatches filters)

/-- Insert into a sorted prefix, after every element `y` with `le y x`:
together with the left fold below this is a stable insertion sort, the
extensional behavior of Python's stable `sorted(key=...)`. -/
def insertStable (le : Task → Task → Bool) (x : Task) : List Task → List Task
  | [] => [x]
  | y :: ys => if le y x then y :: insertStable le x ys else x :: y :: ys

/-- Stable sort by the boolean relation `le` (Python `sorted`): ascending,
ties keep their original order.  `sorted(reverse=True)` is the same sort
under the flipped relation. -/
def stableSort (le : Task → Task → Bool) (tasks : List Task) : List Task :=
  tasks.foldl (fun acc x => insertStable le x acc) []

/-- The comparison of the sort key `(task.due_date is None, task.due_date)`
used by the two due-date branches of `_sort_tasks`: tuples compare
lexicographically, `False < True`, so any dated task precedes any undated
one and dated tasks compare by date.  Two undated tasks have equal keys. -/
def dueKeyLE (a b : Task) : Bool :=
  match a.due_date, b.due_date with
  | none, none => true
  | none, some _ => false
  | some _, none => true
  | some x, some y => x ≤ y

/-- The `priority_order` dictionary of `_sort_tasks`; `.get(value, 0)` is
total over the enum, so the default 0 branch is unreachable here. -/
def priority_order (p : Priority) : Nat :=
  match p with
  | .HIGH => 3
  | .MEDIUM => 2
  | .LOW => 1

/-- `TaskManager._sort_tasks`: dispatch on the sort key;
`reverse=True` branches sort by the flipped comparison (stable), an
unrecognized key returns the list unchanged. -/
def _sort_tasks (tasks : List Task) (sort_by : String) : List Task :=
  if sort_by = "due_date_asc" then stableSort dueKeyLE tasks
  else if sort_by = "due_date_desc" then
    stableSort (fun a b => dueKeyLE b a) tasks
  else if sort_by = "priority_high" then
    stableSort (fun a b => priority_order b.priority ≤ priority_order a.priority) tasks
  else if sort_by = "priority_low" then
    stableSort (fun a b => priority_order a.priority ≤ priority_order b.priority) tasks
  else if sort_by = "created_asc" then
    stableSort (fun a b => a.created_at ≤ b.created_at) tasks
  else if sort_by = "created_desc" then
    stableSort (fun a b => b.created_at ≤ a.created_at) tasks
  else if sort_by = "status" then
    stableSort (fun a b => a.status.value ≤ b.status.value) tasks
  else tasks

/-- `TaskManager.get_all_tasks`: every cached task, optionally sorted. -/
def get_all_tasks (s : TaskManagerState) (sort_by : Option String) :
    List Task :=
  match sort_by with
  | some k => _sort_tasks (cacheValues s) k
  | none => cacheValues s

/-- Python `d.get(k, d0)` on a counter dictionary. -/
def dictGet : List (String × Nat) → String → Nat → Nat
  | [], _, d0 => d0
  | (k, v) :: rest, key, d0 => if k = key then v else dictGet rest key d0

/-- Python `k in d` on a counter dictionary. -/
def dictHasKey : List (String × Nat) → String → Bool
  | [], _ => false
  | (k, _) :: rest, key => if k = key then true else dictHasKey rest key

/-- Python `d[k] = v` on a counter dictionary (key assumed present at every
call site, guarded by `k in d`; an absent key would append). -/
def dictSet : List (String × Nat) → String → Nat → List (String × Nat)
  | [], k, v => [(k, v)]
  | (k0, v0) :: rest, k, v =>
      if k0 = k then (k, v) :: rest else (k0, v0) :: dictSet rest k v

/-- The `stats` dictionary built by `TaskManager.get_statistics`. -/
structure StatsDict where
  total : Nat
  by_status : List (String × Nat)
  by_priority : List (String × Nat)
  overdue : Nat
  due_soon : Nat
deriving DecidableEq

/-- One loop iteration of `get_statistics` over a task.  The status counter
line is reproduced verbatim: the stored value is read back under the key
`status.replace("_", " ")`, so the `in_progress` bucket is re-read under the
absent key `"in progress"`, whose `.get` default 0 makes the assignment
store the constant 1.  A non-COMPLETED task with a due date lands in
`overdue` when `(due_date - now).days`, i.e. floor division of the signed
difference by 86400 seconds, is negative, else in `due_soon` when that
quotient is at most 7. -/
def statsStep (now : Int) (st : StatsDict) (t : Task) : StatsDict :=
  let statusKey := pyLower t.status.value
  let newStatusCount := dictGet st.by_status (pyReplaceUnderscore statusKey) 0 + 1
  let st :=
    if dictHasKey st.by_status statusKey then
      { st with by_status := dictSet st.by_status statusKey newStatusCount }
    else st
  let priorityKey := pyLower t.priority.value
  let newPriorityCount := dictGet st.by_priority priorityKey 0 + 1
  let st :=
    if dictHasKey st.by_priority priorityKey then
      { st with by_priority := dictSet st.by_priority priorityKey newPriorityCount }
    else st
  match t.due_date with
  | some d =>
      if t.status.value ≠ "COMPLETED" then
        let days := Int.fdiv (d - now) 86400
        if days < 0 then { st with overdue := st.overdue + 1 }
        else if days ≤ 7 then { st with due_soon := st.due_soon + 1 }
        else st
      else st
  | none => st

/-- The initial `stats` dictionary of `get_statistics`. -/
def statsInit (total : Nat) : StatsDict :=
  { total := total
    by_status := [("pending", 0), ("in_progress", 0), ("completed", 0)]
    by_priority := [("high", 0), ("medium", 0), ("low", 0)]
    overdue := 0
    due_soon := 0 }

/-- `TaskManager.get_statistics`: fold the loop body over the cached tasks,
starting from zeroed counters and `total = len(tasks)`. -/
def get_statistics (s : TaskManagerState) (now : Int) : StatsDict :=
  (cacheValues s).foldl (statsStep now) (statsInit (cacheValues s).length)

/-! ### Shared sample data and helper lemmas -/

/-- A dated, high-priority, pending task used in concrete scenarios. -/
def sampleA : Task := ⟨"aaa111", "alpha", none, some 100000, .HIGH, .PENDING, 0, 0⟩

/-- An undated, low-priority, in-progress task used in concrete scenarios. -/
def sampleB : Task := ⟨"aab222", "beta", none, none, .LOW, .IN_PROGRESS, 1, 1⟩

/-- A past-due, medium-priority, in-progress task used in concrete
scenarios. -/
def sampleC : Task := ⟨"bbb333", "gamma", none, some (-100000), .MEDIUM, .IN_PROGRESS, 2, 2⟩

/-- Spec-side criterion (§4.3 `filter`): status equality against the
supplied status string; absent criterion unconstrained. -/
def statusCriterionOk (filters : Filters) (t : Task) : Bool :=
  match filters.status with
  | none => true
  | some s => t.status.value = s

/-- Spec-side criterion (§4.3 `filter`): priority equality against the
supplied priority string; absent criterion unconstrained. -/
def priorityCriterionOk (filters : Filters) (t : Task) : Bool :=
  match filters.priority with
  | none => true
  | some p => t.priority.value = p

/-- Spec-side criterion (§4.3 `filter`), due-date clause amended to match
the code: the due-date relation (before / after / on the given date)
constrains only tasks that have a due date — a task with no due date is
unconstrained by a supplied due-date criterion. -/
def dueCriterionOk (filters : Filters) (t : Task) : Bool :=
  match filters.due_date with
  | none => true
  | some df =>
      match t.due_date with
      | none => true
      | some d =>
          if df.type = "before_date" then decide (d < df.date)
          else if df.type = "after_date" then decide (df.date < d)
          else if df.type = "on_date" then
            Int.fdiv d 86400 = Int.fdiv df.date 86400
          else true

/-- The spec's filter predicate: the conjunction of the supplied
criteria. -/
def specMatches (filters : Filters) (t : Task) : Bool :=
  statusCriterionOk filters t && priorityCriterionOk filters t &&
    dueCriterionOk filters t

/-- The condition under which one loop iteration of `get_statistics` counts
a task as overdue: it has a due date, its status is not COMPLETED, and
`(due_date - now).days` is negative. -/
def overdueFlag (now : Int) (t : Task) : Bool :=
  match t.due_date with
  | some d =>
      decide (t.status.value ≠ "COMPLETED") &&
        decide (Int.fdiv (d - now) 86400 < 0)
  | none => false

/-- The condition under which one loop iteration of `get_statistics` counts
a task as due soon: it has a due date, its status is not COMPLETED, and
`(due_date - now).days` is non-negative (the overdue branch was not taken)
and at most 7. -/
def dueSoonFlag (now : Int) (t : Task) : Bool :=
  match t.due_date with
  | some d =>
      decide (t.status.value ≠ "COMPLETED") &&
        !decide (Int.fdiv (d - now) 86400 < 0) &&
        decide (Int.fdiv (d - now) 86400 ≤ 7)
  | none => false

theorem lookupKV_insertKV_self (c : Cache) (k : String) (v : Task) :
    lookupKV (insertKV c k v) k = some v := by
  induction c with
  | nil => simp [insertKV, lookupKV]
  | cons kv rest ih =>
      obtain ⟨k0, v0⟩ := kv
      by_cases h : k0 = k
      · simp [insertKV, lookupKV, h]
      · simp [insertKV, lookupKV, h, ih]

theorem insertKV_append_of_not_mem (c : Cache) (k : String) (v : Task)
    (h : lookupKV c k = none) : insertKV c k v = c ++ [(k, v)] := by
  induction c with
  | nil => simp [insertKV]
  | cons kv rest ih =>
      obtain ⟨k0, v0⟩ := kv
      by_cases hk : k0 = k
      · simp [lookupKV, hk] at h
      · simp only [lookupKV, hk, if_neg hk] at h
        simp [insertKV, hk, ih h]

theorem validate_fields_false_of_long_title (t : Task)
    (h : 100 < pyLen t.title) : t.validate_fields = false := by
  simp only [Task.validate_fields, if_pos h]
  split <;> rfl

theorem updateFinish_timestamps (t : Task) (now : Int) :
    (Task.updateFinish t now).1.created_at = t.created_at ∧
    (Task.updateFinish t now).1.updated_at = now := by
  by_cases h : ({ t with updated_at := now } : Task).validate_fields
  · simp [Task.updateFinish, h]
  · simp [Task.updateFinish, h]

theorem updateStatusStep_timestamps (t : Task) (u : TaskUpdates) (now : Int)
    (h : (Task.updateStatusStep t u now).2 = none) :
    (Task.updateStatusStep t u now).1.created_at = t.created_at ∧
    (Task.updateStatusStep t u now).1.updated_at = now := by
  unfold Task.updateStatusStep at h ⊢
  cases hs : u.status with
  | none =>
      simp only [hs]
      exact updateFinish_timestamps t now
  | some s =>
      simp only [hs] at h ⊢
      cases ho : Status.ofString s with
      | none => simp only [ho] at h; exact Option.noConfusion h
      | some sv =>
          simp only [ho]
          exact updateFinish_timestamps _ now

theorem update_ok_timestamps (t : Task) (u : TaskUpdates) (now : Int)
    (h : (Task.update t u now).2 = none) :
    (Task.update t u now).1.created_at = t.created_at ∧
    (Task.update t u now).1.updated_at = now := by
  unfold Task.update at h ⊢
  cases ht : u.title <;> cases hd : u.description <;> cases hdd : u.due_date <;>
    cases hp : u.priority <;> simp only [ht, hd, hdd, hp] at h ⊢
  all_goals
    try exact updateStatusStep_timestamps _ u now h
  all_goals
    rename_i p
  all_goals
    cases hps : Priority.ofString p <;> simp only [hps] at h ⊢
  all_goals
    first
    | exact Option.noConfusion h
    | exact updateStatusStep_timestamps _ u now h

/-! ### Claim theorems -/

/-- C1: the claim asserts that a failed persist in `update_task` leaves the
cached task's fields unchanged, and that after a successful `update_task`
cache and store row agree on every field including `updated_at`.  The code
violates both: `get_task` returns the cached object itself and
`task.update(**updates)` mutates it in place before the store write, so
after a simulated store failure the cache holds the new title and the
refreshed `updated_at` even though the operation raised and rolled back;
and on success the cached task keeps `updated_at = now1` (set inside
`Task.update`) while the UPDATE statement writes a later reading
`now2` (line 206 of `task_manager.py`), so the two disagree. -/
theorem claim_C1_update_rollback_and_agreement :
    (update_task ⟨[("aaa111", sampleA)], [("aaa111", sampleA)]⟩ "aaa111"
        ⟨some "newtitle", none, none, none, none⟩ 5 6 true).2
      = .error .persistence ∧
    lookupKV (update_task ⟨[("aaa111", sampleA)], [("aaa111", sampleA)]⟩ "aaa111"
        ⟨some "newtitle", none, none, none, none⟩ 5 6 true).1.task_cache "aaa111"
      = some ⟨"aaa111", "newtitle", none, some 100000, .HIGH, .PENDING, 0, 5⟩ ∧
    sampleA.title = "alpha" ∧ sampleA.updated_at = 0 ∧
    (update_task ⟨[("aaa111", sampleA)], [("aaa111", sampleA)]⟩ "aaa111"
        ⟨some "newtitle", none, none, none, none⟩ 5 6 false).2
      = .ok ⟨"aaa111", "newtitle", none, some 100000, .HIGH, .PENDING, 0, 5⟩ ∧
    lookupKV (update_task ⟨[("aaa111", sampleA)], [("aaa111", sampleA)]⟩ "aaa111"
        ⟨some "newtitle", none, none, none, none⟩ 5 6 false).1.task_cache "aaa111"
      = some ⟨"aaa111", "newtitle", none, some 100000, .HIGH, .PENDING, 0, 5⟩ ∧
    lookupKV (update_task ⟨[("aaa111", sampleA)], [("aaa111", sampleA)]⟩ "aaa111"
        ⟨some "newtitle", none, none, none, none⟩ 5 6 false).1.store "aaa111"
      = some ⟨"aaa111", "newtitle", none, some 100000, .HIGH, .PENDING, 0, 6⟩ :=
  ⟨rfl, by decide, rfl, rfl, rfl, by decide, by decide⟩

/-- C3: the claim asserts the per-status counters of `get_statistics` each
equal the number of cached tasks with that status and sum to `total`.  The
loop reads the counter back under the key `status.replace("_", " ")`
(`"in progress"`, absent from `by_status`), so every IN_PROGRESS task
assigns `0 + 1`: with two IN_PROGRESS tasks cached the counter stays 1 and
the three counters sum to 2, not `total = 3`. -/
theorem claim_C3_status_counts_do_not_sum :
    (get_statistics ⟨[("aaa111", sampleA), ("aab222", sampleB),
        ("bbb333", sampleC)], []⟩ 0).total = 3 ∧
    (cacheValues ⟨[("aaa111", sampleA), ("aab222", sampleB),
        ("bbb333", sampleC)], []⟩).countP
        (fun t => t.status == Status.IN_PROGRESS) = 2 ∧
    dictGet (get_statistics ⟨[("aaa111", sampleA), ("aab222", sampleB),
        ("bbb333", sampleC)], []⟩ 0).by_status "in_progress" 0 = 1 ∧
    dictGet (get_statistics ⟨[("aaa111", sampleA), ("aab222", sampleB),
        ("bbb333", sampleC)], []⟩ 0).by_status "pending" 0 +
      dictGet (get_statistics ⟨[("aaa111", sampleA), ("aab222", sampleB),
        ("bbb333", sampleC)], []⟩ 0).by_status "in_progress" 0 +
      dictGet (get_statistics ⟨[("aaa111", sampleA), ("aab222", sampleB),
        ("bbb333", sampleC)], []⟩ 0).by_status "completed" 0 = 2 :=
  ⟨rfl, by decide, by decide, by decide⟩

/-- C5 counterexample: `Task.from_dict` (deserialization with
caller-supplied timestamps) accepts a record whose `updated_at` (3) is
strictly before its `created_at` (10) — no validation compares the two — so
the constructed task violates `updated_at >= created_at`, refuting the
claim that every task accepted by construction satisfies it. -/
theorem claim_C5_counterexample :
    Task.from_dict ⟨some "x", "t", none, none, "LOW", "PENDING", 10, 3⟩ 0 "gen"
      = .ok ⟨"x", "t", none, none, .LOW, .PENDING, 10, 3⟩ ∧
    (3 : Int) < 10 :=
  ⟨rfl, by decide⟩

/-- C5 amended: `updated_at >= created_at` holds for every task constructed
with defaulted timestamps (both default to the same `now`), and
`Task.update` (on success) and `Task.mark_completed` refresh `updated_at`
to the current time, so the invariant is preserved whenever the clock is
not behind `created_at`; deserialization with caller-supplied timestamps
performs no such check. -/
theorem claim_C5_amended_timestamp_invariant :
    (∀ task_id title description due_date priority status now genId t,
        Task.init task_id title description due_date priority status
            none none now genId = .ok t →
        t.created_at ≤ t.updated_at) ∧
    (∀ (t : Task) (u : TaskUpdates) (now : Int),
        t.created_at ≤ now → (Task.update t u now).2 = none →
        (Task.update t u now).1.created_at ≤ (Task.update t u now).1.updated_at) ∧
    (∀ (t : Task) (now : Int), t.created_at ≤ now →
        (Task.mark_completed t now).created_at ≤
          (Task.mark_completed t now).updated_at) := by
  refine ⟨?_, ?_, ?_⟩
  · intro task_id title description due_date priority status now genId t h
    simp only [Task.init] at h
    split at h
    · injection h with h
      subst h
      exact le_refl _
    · exact Except.noConfusion h
  · intro t u now hle h
    obtain ⟨hc, hu⟩ := update_ok_timestamps t u now h
    rw [hc, hu]
    exact hle
  · intro t now hle
    exact hle

/-- C5 amended, witnessed at concrete inputs. -/
theorem claim_C5_amended_witness :
    ((Task.init none "pay rent" none none Priority.HIGH Status.PENDING
        none none 42 "gen1" = .ok ⟨"gen1", "pay rent", none, none, .HIGH, .PENDING, 42, 42⟩) ∧
      (⟨"gen1", "pay rent", none, none, Priority.HIGH, Status.PENDING, 42, 42⟩ : Task).created_at ≤
        (⟨"gen1", "pay rent", none, none, Priority.HIGH, Status.PENDING, 42, 42⟩ : Task).updated_at) ∧
    (Task.update sampleA ⟨some "resched", none, none, none, none⟩ 9).1.created_at ≤
      (Task.update sampleA ⟨some "resched", none, none, none, none⟩ 9).1.updated_at ∧
    (Task.mark_completed sampleA 7).created_at ≤
      (Task.mark_completed sampleA 7).updated_at :=
  ⟨⟨rfl, claim_C5_amended_timestamp_invariant.1 none "pay rent" none none
      Priority.HIGH Status.PENDING 42 "gen1" _ rfl⟩,
    claim_C5_amended_timestamp_invariant.2.1 sampleA
      ⟨some "resched", none, none, none, none⟩ 9 (by decide) rfl,
    claim_C5_amended_timestamp_invariant.2.2 sampleA 7 (by decide)⟩

theorem taskMatches_eq_specMatches (f : Filters) :
    taskMatches f = specMatches f := by
  funext t
  unfold taskMatches specMatches statusCriterionOk priorityCriterionOk dueCriterionOk
  cases f.status <;> cases f.priority <;> cases f.due_date <;>
    cases ht : t.due_date <;> simp [ht]

/-- C2 counterexample: `sampleB` has no due date, yet `filter_tasks` with a
supplied due-date criterion (`before` epoch 0) returns it — the guard
`"due_date" in filters and task.due_date` skips the due-date predicate for
a task whose `due_date` is `None`, so such a task is included, not
excluded, refuting the claim that it never matches a due-date
predicate. -/
theorem claim_C2_counterexample :
    sampleB.due_date = none ∧
    filter_tasks ⟨[("aab222", sampleB)], []⟩
        ⟨none, none, some ⟨"before_date", 0⟩⟩ = [sampleB] :=
  ⟨rfl, by decide⟩

/-- C2 amended: `filter_tasks` returns exactly the cached tasks (in cache
order) satisfying the conjunction of all supplied predicates — status
equality, priority equality, due-date relation — where a task whose
`due_date` is absent is unconstrained by a supplied due-date criterion
(it is always included); with an empty criteria set every cached task is
returned. -/
theorem claim_C2_filter_conjunction (s : TaskManagerState) (f : Filters) :
    filter_tasks s f = (cacheValues s).filter (specMatches f) ∧
    filter_tasks s ⟨none, none, none⟩ = cacheValues s := by
  constructor
  · unfold filter_tasks
    rw [taskMatches_eq_specMatches]
  · unfold filter_tasks
    apply List.filter_eq_self.mpr
    intro t _
    rfl

theorem mem_insertStable (le : Task → Task → Bool) (x a : Task) :
    ∀ l : List Task, a ∈ insertStable le x l ↔ a = x ∨ a ∈ l := by
  intro l
  induction l with
  | nil => simp [insertStable]
  | cons y ys ih =>
      unfold insertStable
      by_cases h : le y x
      · simp only [if_pos h, List.mem_cons, ih]
        tauto
      · simp only [if_neg h, List.mem_cons]

theorem insertStable_pairwise (le : Task → Task → Bool)
    (rel : Task → Task → Prop)
    (h1 : ∀ y x, le y x = true → rel y x)
    (h2 : ∀ y x z, le y x = false → rel y z → rel x z)
    (h3 : ∀ x, rel x x) (x : Task) :
    ∀ l : List Task, l.Pairwise rel → (insertStable le x l).Pairwise rel := by
  intro l
  induction l with
  | nil =>
      intro _
      simp [insertStable]
  | cons y ys ih =>
      intro hp
      rw [List.pairwise_cons] at hp
      obtain ⟨hy, hys⟩ := hp
      unfold insertStable
      by_cases h : le y x
      · rw [if_pos h, List.pairwise_cons]
        refine ⟨?_, ih hys⟩
        intro z hz
        rcases (mem_insertStable le x z ys).mp hz with hzx | hzys
        · rw [hzx]
          exact h1 y x h
        · exact hy z hzys
      · rw [if_neg h, List.pairwise_cons]
        refine ⟨?_, List.pairwise_cons.mpr ⟨hy, hys⟩⟩
        intro z hz
        rcases List.mem_cons.mp hz with hzy | hzys
        · rw [hzy]
          exact h2 y x y (by simpa using h) (h3 y)
        · exact h2 y x z (by simpa using h) (hy z hzys)

theorem stableSort_pairwise (le : Task → Task → Bool)
    (rel : Task → Task → Prop)
    (h1 : ∀ y x, le y x = true → rel y x)
    (h2 : ∀ y x z, le y x = false → rel y z → rel x z)
    (h3 : ∀ x, rel x x) (tasks : List Task) :
    (stableSort le tasks).Pairwise rel := by
  unfold stableSort
  have main : ∀ (l acc : List Task), acc.Pairwise rel →
      (l.foldl (fun acc x => insertStable le x acc) acc).Pairwise rel := by
    intro l
    induction l with
    | nil => intro acc h; exact h
    | cons y ys ih =>
        intro acc h
        exact ih _ (insertStable_pairwise le rel h1 h2 h3 y acc h)
  exact main tasks [] (List.Pairwise.nil)

/-- C4 counterexample: sorting by due date descending places the task with
no due date first, not last.  With the dated `sampleA` and the undated
`sampleB` cached, `get_all_tasks` under `due_date_desc` returns the
undated task ahead of the dated one (the sort key
`(due_date is None, due_date)` makes `None` the largest key, and
`reverse=True` puts the largest first), refuting the claim that tasks with
no due date sort last in both directions. -/
theorem claim_C4_counterexample :
    sampleA.due_date = some 100000 ∧ sampleB.due_date = none ∧
    get_all_tasks ⟨[("aaa111", sampleA), ("aab222", sampleB)], []⟩
        (some "due_date_desc") = [sampleB, sampleA] ∧
    get_all_tasks ⟨[("aaa111", sampleA), ("aab222", sampleB)], []⟩
        (some "due_date_asc") = [sampleA, sampleB] :=
  ⟨rfl, rfl, by decide, by decide⟩

/-- C4 amended: in `get_all_tasks` sorted by due date, tasks with no due
date sort last in the ascending direction but first in the descending
direction: ascending, an undated task never precedes a dated one (whatever
follows an undated task is undated); descending, a dated task never
precedes an undated one (whatever follows a dated task is dated). -/
theorem claim_C4_undated_placement (s : TaskManagerState) :
    (get_all_tasks s (some "due_date_asc")).Pairwise
      (fun a b => a.due_date = none → b.due_date = none) ∧
    (get_all_tasks s (some "due_date_desc")).Pairwise
      (fun a b => a.due_date.isSome → b.due_date.isSome) := by
  constructor
  · have hrw : get_all_tasks s (some "due_date_asc")
        = stableSort dueKeyLE (cacheValues s) := by
      simp [get_all_tasks, _sort_tasks]
    rw [hrw]
    apply stableSort_pairwise
    · intro y x h hy
      cases hx : x.due_date with
      | none => rfl
      | some d =>
          exfalso
          unfold dueKeyLE at h
          rw [hy, hx] at h
          exact Bool.noConfusion h
    · intro y x z h _ hx
      exfalso
      unfold dueKeyLE at h
      rw [hx] at h
      cases hy : y.due_date with
      | none => rw [hy] at h; exact Bool.noConfusion h
      | some d => rw [hy] at h; exact Bool.noConfusion h
    · intro x hx
      exact hx
  · have hrw : get_all_tasks s (some "due_date_desc")
        = stableSort (fun a b => dueKeyLE b a) (cacheValues s) := by
      simp [get_all_tasks, _sort_tasks]
    rw [hrw]
    apply stableSort_pairwise
    · intro y x h hy
      cases hyd : y.due_date with
      | none => rw [hyd] at hy; exact Bool.noConfusion hy
      | some d =>
          cases hx : x.due_date with
          | some e => rfl
          | none =>
              exfalso
              simp only at h
              unfold dueKeyLE at h
              rw [hx, hyd] at h
              exact Bool.noConfusion h
    · intro y x z h hyz hx
      simp only at h
      unfold dueKeyLE at h
      cases hxd : x.due_date with
      | none => rw [hxd] at hx; exact Bool.noConfusion hx
      | some a =>
          rw [hxd] at h
          cases hyd : y.due_date with
          | none => rw [hyd] at h; exact Bool.noConfusion h
          | some b =>
              apply hyz
              rw [hyd]
              rfl
    · intro x hx
      exact hx

/-- C7: `get_task_by_partial_id` consults only the cache (it takes only the
cache: the store is not even an argument), and over the cache entries whose
id has the given string as a prefix it returns the unique match when
exactly one exists, raises `TaskNotFoundError` when zero match, and raises
the ambiguous `TaskNotFoundError` variant carrying the shortened
(`task_id[:8]`) candidate ids when two or more match. -/
theorem claim_C7_partial_id_lookup (task_cache : Cache) (partial_id : String) :
    (∀ t, t ∈ (task_cache.filter
          (fun kv => pyStartsWith kv.1 partial_id)).map Prod.snd ↔
        ∃ k, (k, t) ∈ task_cache ∧ pyStartsWith k partial_id = true) ∧
    ((task_cache.filter (fun kv => pyStartsWith kv.1 partial_id)).map Prod.snd
        = [] →
      get_task_by_partial_id task_cache partial_id = .error .taskNotFound) ∧
    (∀ t, (task_cache.filter
          (fun kv => pyStartsWith kv.1 partial_id)).map Prod.snd = [t] →
      get_task_by_partial_id task_cache partial_id = .ok t) ∧
    (2 ≤ ((task_cache.filter
          (fun kv => pyStartsWith kv.1 partial_id)).map Prod.snd).length →
      get_task_by_partial_id task_cache partial_id
        = .error (.ambiguousId (((task_cache.filter
            (fun kv => pyStartsWith kv.1 partial_id)).map Prod.snd).map
              (fun t => pyTake t.task_id 8)))) := by
  refine ⟨?_, ?_, ?_, ?_⟩
  · intro t
    simp only [List.mem_map, List.mem_filter]
    constructor
    · rintro ⟨⟨k, v⟩, ⟨hmem, hpre⟩, hsnd⟩
      refine ⟨k, ?_, hpre⟩
      have hvt : v = t := hsnd
      rw [hvt] at hmem
      exact hmem
    · rintro ⟨k, hmem, hpre⟩
      exact ⟨(k, t), ⟨hmem, hpre⟩, rfl⟩
  · intro h
    simp only [get_task_by_partial_id, h]
  · intro t h
    simp only [get_task_by_partial_id, h]
  · intro hlen
    simp only [get_task_by_partial_id]
    rcases hE : (task_cache.filter
        (fun kv => pyStartsWith kv.1 partial_id)).map Prod.snd
      with _ | ⟨a, _ | ⟨b, rest⟩⟩
    · rw [hE] at hlen
      simp at hlen
    · rw [hE] at hlen
      simp at hlen
    · rw [hE]

/-- C7, witnessed at a concrete cache: a prefix with exactly one match
returns that task, a prefix with no match fails, and a prefix with two
matches fails with the two shortened ids. -/
theorem claim_C7_partial_id_lookup_witness :
    get_task_by_partial_id [("aaa111", sampleA), ("aab222", sampleB)] "aaa"
      = .ok sampleA ∧
    get_task_by_partial_id [("aaa111", sampleA), ("aab222", sampleB)] "zzz"
      = .error .taskNotFound ∧
    get_task_by_partial_id [("aaa111", sampleA), ("aab222", sampleB)] "aa"
      = .error (.ambiguousId ["aaa111", "aab222"]) :=
  ⟨(claim_C7_partial_id_lookup [("aaa111", sampleA), ("aab222", sampleB)]
      "aaa").2.2.1 sampleA rfl,
    (claim_C7_partial_id_lookup [("aaa111", sampleA), ("aab222", sampleB)]
      "zzz").2.1 rfl,
    (claim_C7_partial_id_lookup [("aaa111", sampleA), ("aab222", sampleB)]
      "aa").2.2.2 (by decide)⟩

theorem task_init_defaults_ok (title : String) (description : Option String)
    (due_date : Option Int) (p : Priority) (now : Int) (genId : String)
    (hv : Task.validate_fields ⟨genId, title, description, due_date, p,
        .PENDING, now, now⟩ = true) :
    Task.init none title description due_date p .PENDING none none now genId
      = .ok ⟨genId, title, description, due_date, p, .PENDING, now, now⟩ := by
  simp only [Task.init, Option.getD_none]
  rw [if_pos hv]

theorem add_task_ok (s : TaskManagerState) (task_data : AddTaskData)
    (now : Int) (genId : String) (p : Priority)
    (hp : Priority.ofString task_data.priority = some p)
    (hv : Task.validate_fields ⟨genId, task_data.title, task_data.description,
        task_data.due_date, p, .PENDING, now, now⟩ = true) :
    add_task s task_data now genId false
      = (⟨insertKV s.task_cache genId
            ⟨genId, task_data.title, task_data.description,
              task_data.due_date, p, .PENDING, now, now⟩,
          insertKV s.store genId
            ⟨genId, task_data.title, task_data.description,
              task_data.due_date, p, .PENDING, now, now⟩⟩,
         .ok ⟨genId, task_data.title, task_data.description,
              task_data.due_date, p, .PENDING, now, now⟩) := by
  simp only [add_task, hp,
    task_init_defaults_ok task_data.title task_data.description
      task_data.due_date p now genId hv]
  simp

/-- C6: for every valid input field set (a title and optional description
accepted by `validate_fields`, a recognized priority string, any optional
due date), `add_task` succeeds and a subsequent `get_task` on the new
task's id returns, without touching the store, a task whose title,
description, due date and priority equal the input, with status PENDING. -/
theorem claim_C6_add_then_get_roundtrip (s : TaskManagerState)
    (task_data : AddTaskData) (now : Int) (genId : String) (p : Priority)
    (hp : Priority.ofString task_data.priority = some p)
    (hv : Task.validate_fields ⟨genId, task_data.title, task_data.description,
        task_data.due_date, p, .PENDING, now, now⟩ = true) :
    ∃ s2 task, add_task s task_data now genId false = (s2, .ok task) ∧
      task.title = task_data.title ∧
      task.description = task_data.description ∧
      task.due_date = task_data.due_date ∧
      task.priority = p ∧
      task.status = .PENDING ∧
      get_task s2 task.task_id = (s2, .ok task) := by
  refine ⟨_, _, add_task_ok s task_data now genId p hp hv,
    rfl, rfl, rfl, rfl, rfl, ?_⟩
  simp only [get_task, lookupKV_insertKV_self]

/-- C6, witnessed at a concrete valid field set. -/
theorem claim_C6_add_then_get_roundtrip_witness :
    Priority.ofString "HIGH" = some Priority.HIGH ∧
    Task.validate_fields ⟨"gen9", "Pay rent", some "by wire", some 172800,
        .HIGH, .PENDING, 50, 50⟩ = true ∧
    (∃ s2 task,
      add_task ⟨[], []⟩ ⟨none, "Pay rent", some "by wire", some 172800,
          "HIGH", none⟩ 50 "gen9" false = (s2, .ok task) ∧
      task.title = "Pay rent" ∧
      task.description = some "by wire" ∧
      task.due_date = some 172800 ∧
      task.priority = Priority.HIGH ∧
      task.status = .PENDING ∧
      get_task s2 task.task_id = (s2, .ok task)) :=
  ⟨rfl, by decide,
    claim_C6_add_then_get_roundtrip ⟨[], []⟩
      ⟨none, "Pay rent", some "by wire", some 172800, "HIGH", none⟩
      50 "gen9" Priority.HIGH rfl (by decide)⟩

/-- C9: when `update_task` rejects an update because a supplied title
violates the length invariant, the `ValidationError` is raised only after
`task.update(**kwargs)` has already assigned the new field values and
refreshed `updated_at` on the cached object itself, so after the error the
cache holds the rejected title and the new `updated_at` while the store is
untouched: the entity update is not atomic on validation failure. -/
theorem claim_C9_validation_failure_mutates_cache (s : TaskManagerState)
    (task_id : String) (t : Task) (newTitle : String)
    (now1 now2 : Int) (storeFails : Bool)
    (hc : lookupKV s.task_cache task_id = some t)
    (hlong : 100 < pyLen newTitle) :
    update_task s task_id ⟨some newTitle, none, none, none, none⟩
        now1 now2 storeFails
      = ({ s with task_cache := (insertKV s.task_cache task_id
            { t with title := newTitle, updated_at := now1 }) },
         .error (.validation .invalidFields)) ∧
    lookupKV (update_task s task_id ⟨some newTitle, none, none, none, none⟩
        now1 now2 storeFails).1.task_cache task_id
      = some { t with title := newTitle, updated_at := now1 } ∧
    (update_task s task_id ⟨some newTitle, none, none, none, none⟩
        now1 now2 storeFails).1.store = s.store := by
  have hupd : Task.update t ⟨some newTitle, none, none, none, none⟩ now1
      = ({ t with title := newTitle, updated_at := now1 },
         some .invalidFields) := by
    simp only [Task.update, Task.updateStatusStep, Task.updateFinish]
    rw [if_neg ?_]
    intro hcontra
    rw [validate_fields_false_of_long_title _ hlong] at hcontra
    exact Bool.noConfusion hcontra
  have heq : update_task s task_id ⟨some newTitle, none, none, none, none⟩
      now1 now2 storeFails
      = ({ s with task_cache := (insertKV s.task_cache task_id
            { t with title := newTitle, updated_at := now1 }) },
         .error (.validation .invalidFields)) := by
    simp only [update_task, get_task, hc, hupd]
  refine ⟨heq, ?_, ?_⟩
  · rw [heq]
    exact lookupKV_insertKV_self _ _ _
  · rw [heq]

/-- C9, witnessed with a 101-character title on a concrete cache. -/
theorem claim_C9_validation_failure_mutates_cache_witness :
    lookupKV [("aaa111", sampleA)] "aaa111" = some sampleA ∧
    100 < pyLen (String.mk (List.replicate 101 'x')) ∧
    update_task ⟨[("aaa111", sampleA)], [("aaa111", sampleA)]⟩ "aaa111"
        ⟨some (String.mk (List.replicate 101 'x')), none, none, none, none⟩
        5 6 false
      = (⟨[("aaa111", { sampleA with
            title := String.mk (List.replicate 101 'x'), updated_at := 5 })],
          [("aaa111", sampleA)]⟩,
         .error (.validation .invalidFields)) :=
  ⟨by decide, by decide, by
    have h := (claim_C9_validation_failure_mutates_cache
      ⟨[("aaa111", sampleA)], [("aaa111", sampleA)]⟩ "aaa111" sampleA
      (String.mk (List.replicate 101 'x')) 5 6 false (by decide) (by decide)).1
    rw [h]
    rfl⟩

/-- C10: `add_task` builds the new task from only the title, description,
due date and priority of its input record: a caller-supplied `id` or
`status` entry is ignored, the task's id is the freshly generated uuid
(new to the cache whenever the generator is fresh, appended as a new
entry) and its status is PENDING. -/
theorem claim_C10_add_ignores_caller_id_status (s : TaskManagerState)
    (callerId : Option String) (callerStatus : Option String)
    (title : String) (description : Option String) (due_date : Option Int)
    (priorityStr : String) (now : Int) (genId : String) (p : Priority)
    (hp : Priority.ofString priorityStr = some p)
    (hv : Task.validate_fields ⟨genId, title, description, due_date, p,
        .PENDING, now, now⟩ = true)
    (hfresh : lookupKV s.task_cache genId = none) :
    ∃ s2 task,
      add_task s ⟨callerId, title, description, due_date, priorityStr,
          callerStatus⟩ now genId false = (s2, .ok task) ∧
      task.task_id = genId ∧
      task.status = .PENDING ∧
      s2.task_cache = s.task_cache ++ [(genId, task)] ∧
      lookupKV s2.task_cache genId = some task := by
  refine ⟨_, _, add_task_ok s ⟨callerId, title, description, due_date,
      priorityStr, callerStatus⟩ now genId p hp hv, rfl, rfl, ?_, ?_⟩
  · exact insertKV_append_of_not_mem s.task_cache genId _ hfresh
  · exact lookupKV_insertKV_self _ _ _

/-- C10, witnessed with a record carrying hostile `id` and `status`
entries: the created task still gets the generated id and PENDING. -/
theorem claim_C10_add_ignores_caller_id_status_witness :
    Priority.ofString "LOW" = some Priority.LOW ∧
    lookupKV [("aaa111", sampleA)] "gen7" = none ∧
    (∃ s2 task,
      add_task ⟨[("aaa111", sampleA)], [("aaa111", sampleA)]⟩
          ⟨some "evil-id", "Walk dog", none, none, "LOW",
            some "COMPLETED"⟩ 99 "gen7" false = (s2, .ok task) ∧
      task.task_id = "gen7" ∧
      task.status = .PENDING ∧
      s2.task_cache = [("aaa111", sampleA)] ++ [("gen7", task)] ∧
      lookupKV s2.task_cache "gen7" = some task) :=
  ⟨rfl, by decide,
    claim_C10_add_ignores_caller_id_status
      ⟨[("aaa111", sampleA)], [("aaa111", sampleA)]⟩
      (some "evil-id") (some "COMPLETED") "Walk dog" none none "LOW"
      99 "gen7" Priority.LOW rfl (by decide) (by decide)⟩

theorem statsStep_overdue (now : Int) (st : StatsDict) (t : Task) :
    (statsStep now st t).overdue
        = st.overdue + (if overdueFlag now t then 1 else 0) := by
  cases hd : t.due_date with
  | none =>
      have hflag : overdueFlag now t = false := by
        unfold overdueFlag
        rw [hd]
      rw [hflag]
      unfold statsStep
      rw [hd]
      dsimp only
      split <;> split <;> rfl
  | some d =>
      by_cases hs : t.status.value = "COMPLETED"
      · have hflag : overdueFlag now t = false := by
          unfold overdueFlag
          rw [hd]
          simp [hs]
        rw [hflag]
        unfold statsStep
        rw [hd]
        dsimp only
        rw [if_neg (fun hcon => hcon hs)]
        split <;> split <;> rfl
      · by_cases hneg : Int.fdiv (d - now) 86400 < 0
        · have hflag : overdueFlag now t = true := by
            unfold overdueFlag
            rw [hd]
            simp [hs, hneg]
          rw [hflag]
          unfold statsStep
          rw [hd]
          dsimp only
          rw [if_pos hs, if_pos hneg]
          split <;> split <;> rfl
        · have hflag : overdueFlag now t = false := by
            unfold overdueFlag
            rw [hd]
            simp [hneg]
          rw [hflag]
          unfold statsStep
          rw [hd]
          dsimp only
          rw [if_pos hs, if_neg hneg]
          by_cases h7 : Int.fdiv (d - now) 86400 ≤ 7
          · rw [if_pos h7]
            split <;> split <;> rfl
          · rw [if_neg h7]
            split <;> split <;> rfl

theorem statsStep_due_soon (now : Int) (st : StatsDict) (t : Task) :
    (statsStep now st t).due_soon
        = st.due_soon + (if dueSoonFlag now t then 1 else 0) := by
  cases hd : t.due_date with
  | none =>
      have hflag : dueSoonFlag now t = false := by
        unfold dueSoonFlag
        rw [hd]
      rw [hflag]
      unfold statsStep
      rw [hd]
      dsimp only
      split <;> split <;> rfl
  | some d =>
      by_cases hs : t.status.value = "COMPLETED"
      · have hflag : dueSoonFlag now t = false := by
          unfold dueSoonFlag
          rw [hd]
          simp [hs]
        rw [hflag]
        unfold statsStep
        rw [hd]
        dsimp only
        rw [if_neg (fun hcon => hcon hs)]
        split <;> split <;> rfl
      · by_cases hneg : Int.fdiv (d - now) 86400 < 0
        · have hflag : dueSoonFlag now t = false := by
            unfold dueSoonFlag
            rw [hd]
            simp [hneg]
          rw [hflag]
          unfold statsStep
          rw [hd]
          dsimp only
          rw [if_pos hs, if_pos hneg]
          split <;> split <;> rfl
        · by_cases h7 : Int.fdiv (d - now) 86400 ≤ 7
          · have hflag : dueSoonFlag now t = true := by
              unfold dueSoonFlag
              rw [hd]
              simp [hs, hneg, h7]
            rw [hflag]
            unfold statsStep
            rw [hd]
            dsimp only
            rw [if_pos hs, if_neg hneg, if_pos h7]
            split <;> split <;> rfl
          · have hflag : dueSoonFlag now t = false := by
              unfold dueSoonFlag
              rw [hd]
              simp [h7]
            rw [hflag]
            unfold statsStep
            rw [hd]
            dsimp only
            rw [if_pos hs, if_neg hneg, if_neg h7]
            split <;> split <;> rfl

theorem foldl_statsStep_due_buckets (now : Int) (l : List Task) :
    ∀ st : StatsDict,
      (l.foldl (statsStep now) st).overdue
          = st.overdue + l.countP (overdueFlag now) ∧
      (l.foldl (statsStep now) st).due_soon
          = st.due_soon + l.countP (dueSoonFlag now) := by
  induction l with
  | nil => intro st; simp
  | cons y ys ih =>
      intro st
      simp only [List.foldl_cons, List.countP_cons]
      obtain ⟨h1, h2⟩ := ih (statsStep now st y)
      constructor
      · rw [h1, statsStep_overdue now st y]
        omega
      · rw [h2, statsStep_due_soon now st y]
        omega

theorem status_value_eq_completed (st : Status) :
    st.value = "COMPLETED" ↔ st = .COMPLETED := by
  cases st <;> decide

/-- C8: the overdue and due-soon counters of `get_statistics` count two
mutually exclusive sets of cached tasks (the due-soon branch is the `elif`
of the overdue test): no task is counted in both buckets; a non-COMPLETED
task due strictly in the past is counted overdue and never due-soon, a
non-COMPLETED task due between `now` and 7 days later is counted due-soon
and never overdue, and a COMPLETED task is counted in neither bucket. -/
theorem claim_C8_overdue_due_soon_exclusive (s : TaskManagerState) (now : Int) :
    (get_statistics s now).overdue = (cacheValues s).countP (overdueFlag now) ∧
    (get_statistics s now).due_soon = (cacheValues s).countP (dueSoonFlag now) ∧
    (∀ t, ¬(overdueFlag now t = true ∧ dueSoonFlag now t = true)) ∧
    (∀ t d, t.due_date = some d → t.status ≠ .COMPLETED → d < now →
        overdueFlag now t = true ∧ dueSoonFlag now t = false) ∧
    (∀ t d, t.due_date = some d → t.status ≠ .COMPLETED → now ≤ d →
        d ≤ now + 7 * 86400 →
        dueSoonFlag now t = true ∧ overdueFlag now t = false) ∧
    (∀ t, t.status = .COMPLETED →
        overdueFlag now t = false ∧ dueSoonFlag now t = false) := by
  refine ⟨?_, ?_, ?_, ?_, ?_, ?_⟩
  · have h := (foldl_statsStep_due_buckets now (cacheValues s)
      (statsInit (cacheValues s).length)).1
    simpa [get_statistics, statsInit] using h
  · have h := (foldl_statsStep_due_buckets now (cacheValues s)
      (statsInit (cacheValues s).length)).2
    simpa [get_statistics, statsInit] using h
  · intro t ⟨ho, hd⟩
    unfold overdueFlag at ho
    unfold dueSoonFlag at hd
    cases hdd : t.due_date with
    | none => rw [hdd] at ho; exact Bool.noConfusion ho
    | some d =>
        rw [hdd] at ho hd
        simp only [Bool.and_eq_true, decide_eq_true_eq] at ho hd
        have hnot : ¬ Int.fdiv (d - now) 86400 < 0 := by
          simpa using hd.1.2
        exact hnot ho.2
  · intro t d hdd hst hlt
    have hsv : t.status.value ≠ "COMPLETED" := by
      intro h
      exact hst ((status_value_eq_completed t.status).mp h)
    have hneg : Int.fdiv (d - now) 86400 < 0 :=
      Int.fdiv_neg' (by omega) (by decide)
    constructor
    · unfold overdueFlag
      rw [hdd]
      simp [hsv, hneg]
    · unfold dueSoonFlag
      rw [hdd]
      simp [hsv, hneg]
  · intro t d hdd hst hge hle
    have hsv : t.status.value ≠ "COMPLETED" := by
      intro h
      exact hst ((status_value_eq_completed t.status).mp h)
    have hnonneg : 0 ≤ Int.fdiv (d - now) 86400 :=
      Int.fdiv_nonneg (by omega) (by decide)
    have h7 : Int.fdiv (d - now) 86400 ≤ 7 := by
      rw [Int.fdiv_eq_ediv _ (by decide)]
      have hmul := Int.ediv_le_ediv (c := 86400) (by decide)
        (show d - now ≤ 7 * 86400 by omega)
      rwa [Int.mul_ediv_cancel 7 (by decide)] at hmul
    constructor
    · unfold dueSoonFlag
      rw [hdd]
      simp [hsv, h7]
      omega
    · unfold overdueFlag
      rw [hdd]
      simp [hsv]
      omega
  · intro t hst
    have hsv : t.status.value = "COMPLETED" :=
      (status_value_eq_completed t.status).mpr hst
    constructor
    · unfold overdueFlag
      cases hdd : t.due_date <;> simp [hsv]
    · unfold dueSoonFlag
      cases hdd : t.due_date <;> simp [hsv]

/-- C8, witnessed on a concrete cache at `now = 0`: the in-progress task
due in the past (`sampleC`) is counted overdue only, the pending task due
in two days (`sampleA`) is counted due-soon only, and a completed task due
yesterday is counted in neither bucket. -/
theorem claim_C8_overdue_due_soon_exclusive_witness :
    (get_statistics ⟨[("aaa111", sampleA), ("bbb333", sampleC)], []⟩ 0).overdue
      = 1 ∧
    (get_statistics ⟨[("aaa111", sampleA), ("bbb333", sampleC)], []⟩ 0).due_soon
      = 1 ∧
    (overdueFlag 0 sampleC = true ∧ dueSoonFlag 0 sampleC = false) ∧
    (dueSoonFlag 0 sampleA = true ∧ overdueFlag 0 sampleA = false) ∧
    (overdueFlag 0 (Task.mark_completed sampleC 0) = false ∧
      dueSoonFlag 0 (Task.mark_completed sampleC 0) = false) :=
  ⟨by decide, by decide,
    (claim_C8_overdue_due_soon_exclusive ⟨[], []⟩ 0).2.2.2.1 sampleC
      (-100000) rfl (by decide) (by decide),
    (claim_C8_overdue_due_soon_exclusive ⟨[], []⟩ 0).2.2.2.2.1 sampleA
      100000 rfl (by decide) (by decide) (by decide),
    (claim_C8_overdue_due_soon_exclusive ⟨[], []⟩ 0).2.2.2.2.2
      (Task.mark_completed sampleC 0) rfl⟩

end TaskApp
